import Mathlib

/-!
Verification of the chat request handler `chat_send` from `chat/views.py`
of the MajorP-ChatBot repository.

The handler is embedded shallowly as a pure Lean function.  External
collaborators (the Gemini conversation session, Django's default storage,
PIL's image decoder) are modelled as oracle functions bundled in an `Env`
record; their invocations are recorded in an explicit `Trace` so that
claims about which side effects happen (and in which order relative to
validation) can be stated.  The Python standard-library pieces whose exact
behaviour the handler depends on — `base64.b64decode` (non-strict mode of
`binascii.a2b_base64`), `str.strip`, `str.split(',', 1)`, and Python
truthiness — are embedded concretely.
-/

set_option autoImplicit false

namespace ChatBot

/-! ## Python value model

JSON scalar values as they reach `payload.get('message')` /
`payload.get('image')`.  Containers are not needed by any claim. -/

inductive PyVal where
  | pyNone
  | pyStr (s : String)
  | pyInt (n : Int)
  | pyBool (b : Bool)
  deriving DecidableEq, Repr

/-- Python truthiness of a scalar value. -/
def PyVal.truthy : PyVal → Bool
  | .pyNone => false
  | .pyStr s => s ≠ ""
  | .pyInt n => n ≠ 0
  | .pyBool b => b

/-! ## `base64.b64decode` (CPython, `validate=False`)

`base64.b64decode` on a `str` first encodes it as ASCII (failure for
non-ASCII characters) and then runs `binascii.a2b_base64` in non-strict
mode: characters outside the base64 alphabet are skipped, `'='` ends the
decode once a quad has at least two data characters and enough padding,
and a leftover of one data character, or of two or three data characters
without padding, is an error. -/

/-- Value of a base64 alphabet character, `none` for non-alphabet bytes. -/
def b64Val (c : Char) : Option Nat :=
  if 'A' ≤ c ∧ c ≤ 'Z' then some (c.toNat - 65)
  else if 'a' ≤ c ∧ c ≤ 'z' then some (c.toNat - 97 + 26)
  else if '0' ≤ c ∧ c ≤ '9' then some (c.toNat - 48 + 52)
  else if c = '+' then some 62
  else if c = '/' then some 63
  else none

/-- Main loop of non-strict `binascii.a2b_base64`: state is the position
inside the current quad, the pending bits, the count of pending pad
characters and the reversed output accumulator. -/
def b64Loop : List Char → Nat → Nat → Nat → List Nat → Except String (List Nat)
  | [], quadPos, _, _, acc =>
    if quadPos = 0 then .ok acc.reverse
    else if quadPos = 1 then
      .error "Invalid base64-encoded string: number of data characters cannot be 1 more than a multiple of 4"
    else .error "Incorrect padding"
  | c :: rest, quadPos, leftchar, pads, acc =>
    if c = '=' then
      if 2 ≤ quadPos then
        if 4 ≤ quadPos + (pads + 1) then .ok acc.reverse
        else b64Loop rest quadPos leftchar (pads + 1) acc
      else b64Loop rest quadPos leftchar pads acc
    else
      match b64Val c with
      | none => b64Loop rest quadPos leftchar pads acc
      | some v =>
        match quadPos with
        | 0 => b64Loop rest 1 v 0 acc
        | 1 => b64Loop rest 2 (v % 16) 0 ((leftchar * 4 + v / 16) :: acc)
        | 2 => b64Loop rest 3 (v % 4) 0 ((leftchar * 16 + v / 4) :: acc)
        | _ => b64Loop rest 0 0 0 ((leftchar * 64 + v) :: acc)

/-- `base64.b64decode` applied to a Python `str` (default non-validating
mode); `.error` models the raised exception. -/
def pyB64Decode (s : String) : Except String (List Nat) :=
  if s.data.any (fun c => 128 ≤ c.toNat) then
    .error "string argument should contain only ASCII characters"
  else b64Loop s.data 0 0 0 []

/-- Does `base64.b64decode` raise on this input? -/
def b64DecodeFails (s : String) : Bool :=
  match pyB64Decode s with
  | .error _ => true
  | .ok _ => false

/-! ## String helpers from the handler -/

/-- Does the first character list start with the second one? -/
def charsStartWith : List Char → List Char → Bool
  | _, [] => true
  | [], _ :: _ => false
  | c :: cs, p :: ps => c == p && charsStartWith cs ps

/-- Python `s.startswith(pre)` (also the semantics of
`content_type.startswith` checks in the handler). -/
def pyStartsWith (s pre : String) : Bool :=
  charsStartWith s.data pre.data

/-- Python whitespace for `str.strip()` (ASCII subset). -/
def pySpaceChar (c : Char) : Bool :=
  c == ' ' || c == '\t' || c == '\n' || c == '\r' || c == '\x0b' || c == '\x0c'

/-- Python `s.strip()`: drop leading and trailing whitespace. -/
def pyStrip (s : String) : String :=
  String.mk (((s.data.dropWhile pySpaceChar).reverse.dropWhile pySpaceChar).reverse)

/-- Characters after the first `','` of a character list. -/
def afterComma : List Char → List Char
  | [] => []
  | c :: rest => if c = ',' then rest else afterComma rest

/-- The base64 payload the handler extracts from the `image` string:
`base64_image.split(',', 1)[1]` when the string contains a comma
(discarding the data-URL head), the whole string otherwise. -/
def dataUrlPayload (s : String) : String :=
  if s.data.contains ',' then String.mk (afterComma s.data) else s

/-- Python `(x or "").strip()` for an optional form-field string
(`request.POST.get('message')`). -/
def stripFormMessage : Option String → String
  | none => ""
  | some s => if s = "" then "" else pyStrip s

/-- Python `(payload.get('message') or "").strip()` for a scalar JSON
value: a falsy value becomes `""`; `.strip()` on a truthy non-string
raises `AttributeError` (modelled as `.error`). -/
def stripMessage : Option PyVal → Except String String
  | none => .ok ""
  | some v =>
    if v.truthy then
      match v with
      | .pyStr s => .ok (pyStrip s)
      | _ => .error "AttributeError: object has no attribute strip"
    else .ok ""

/-- Evaluation of `base64_image = payload.get('image')` followed by
`if base64_image:` and the subsequent `',' in base64_image` membership
test: a falsy value skips the image branch; a truthy string is kept; a
truthy non-container scalar makes the membership test raise `TypeError`. -/
def imageField : Option PyVal → Except String (Option String)
  | none => .ok none
  | some v =>
    if v.truthy then
      match v with
      | .pyStr s => .ok (some s)
      | _ => .error "TypeError: argument is not a container"
    else .ok none

/-! ## Data model of the handler's collaborators and requests -/

/-- A Django `UploadedFile` as the handler uses it: declared name,
declared content type, and the raw bytes (`size` is the byte count). -/
structure UploadedFile where
  name : String
  content_type : String
  bytes : List Nat
  deriving DecidableEq, Repr

/-- Shape of the value returned by `chat_session.send_message`, as far as
the handler's duck-typed extraction inspects it: an optional `text`
attribute, whether the value is a `dict` (and its `"text"` entry then),
and its `str()` rendering. -/
structure ProviderResponse where
  textAttr : Option String
  isDict : Bool
  dictText : Option String
  strRepr : String
  deriving DecidableEq, Repr

/-- One element of the `contents` list sent to the provider: the user's
text or the decoded image. -/
inductive ContentPart where
  | text (s : String)
  | image (bytes : List Nat)
  deriving DecidableEq, Repr

/-- Oracles for the handler's environment: the global `chat_session`
(truthy or not), the configured `MAX_UPLOAD_SIZE`, PIL's `Image.open`
success predicate, `default_storage.save`+`url` (bytes and path to URL,
`.error` models a raised exception), and `chat_session.send_message`. -/
structure Env where
  chat_session : Bool
  MAX_UPLOAD_SIZE : Nat
  pilOpenOk : List Nat → Bool
  storageSave : List Nat → String → Except String String
  send_message : List ContentPart → Except String ProviderResponse

/-- An inbound POST request, after framework decoding: the content type,
the multipart `message` form field and `image` file (populated on the
multipart path), and the parsed JSON body — `none` models a
`json.JSONDecodeError`, otherwise the `message` and `image` entries of
the payload. -/
structure Request where
  content_type : String
  post_message : Option String
  files_image : Option UploadedFile
  json_body : Option (Option PyVal × Option PyVal)

/-- Observable side effects of one handler run: how many times the blob
store (`default_storage.save`) was invoked, how many times
`send_message` was invoked, and the operator log entries. -/
structure Trace where
  storageCalls : Nat
  sendCalls : Nat
  log : List String
  deriving DecidableEq, Repr

/-- Trace of a run that performed no side effect. -/
def Trace.empty : Trace := ⟨0, 0, []⟩

/-- A `JsonResponse`: HTTP status and the JSON object as a key-value
list. -/
structure HttpResponse where
  status : Nat
  body : List (String × String)
  deriving DecidableEq, Repr

/-- Builds a `JsonResponse` value. -/
def jsonResponse (status : Nat) (body : List (String × String)) : HttpResponse :=
  ⟨status, body⟩

/-! ## Response message constants from `chat/views.py` -/

def UNAVAILABLE_MSG : String := "AI service is unavailable due to configuration error."
def INVALID_FILE_TYPE_MSG : String := "Invalid file type. Only images are allowed."
def FAILED_PROCESS_MSG : String := "Failed to process uploaded image."
def INVALID_JSON_MSG : String := "Invalid JSON format."
def INVALID_B64_MSG : String := "Invalid base64 image data."
def FAILED_DECODE_MSG : String := "Failed to decode image."
def NOTHING_TO_SEND_MSG : String := "Please send text or an image."
def PROVIDER_ERROR_MSG : String := "Sorry, the AI assistant encountered an error. Please try again."
def INTERNAL_ERROR_MSG : String := "Internal server error."

/-- The f-string `'Image too large (max {MAX_UPLOAD_SIZE // (1024*1024)}MB).'`. -/
def tooLargeMsg (maxUploadSize : Nat) : String :=
  "Image too large (max " ++ toString (maxUploadSize / (1024 * 1024)) ++ "MB)."

/-! ## Reply extraction (lines 175–178) -/

/-- Python `a or b` on optional strings, with string truthiness. -/
def pyOrOpt (a b : Option String) : Option String :=
  match a with
  | some s => if s = "" then b else some s
  | none => b

/-- `getattr(response, "text", None) or (response.get("text") if
isinstance(response, dict) else None)`, then `str(response)` when the
combined value is falsy. -/
def extractReply (r : ProviderResponse) : String :=
  match pyOrOpt r.textAttr (if r.isDict then r.dictText else none) with
  | some s => if s = "" then r.strRepr else s
  | none => r.strRepr

/-! ## The handler -/

/-- The `contents` list sent to the provider (lines 165–169): the
non-empty text first, then the image. -/
def contentsOf (user_message : String) (pil_image : Option (List Nat)) :
    List ContentPart :=
  (if user_message = "" then [] else [ContentPart.text user_message]) ++
  (match pil_image with
   | some b => [ContentPart.image b]
   | none => [])

/-- Tail of the handler shared by all input paths (lines 156–188): the
"nothing provided" short-circuit, the `contents` construction, the
provider call with its error mapping, and the final payload assembly.
`t` is the trace accumulated by the input path. -/
def finishTurn (env : Env) (user_message : String) (pil_image : Option (List Nat))
    (image_url : Option String) (t : Trace) : HttpResponse × Trace :=
  if user_message = "" ∧ pil_image = none then
    (jsonResponse 200 [("response", NOTHING_TO_SEND_MSG)], t)
  else
    match env.send_message (contentsOf user_message pil_image) with
    | .error e =>
      (jsonResponse 500 [("response", PROVIDER_ERROR_MSG)],
       { storageCalls := t.storageCalls, sendCalls := t.sendCalls + 1,
         log := t.log ++ ["Gemini API error while sending message: " ++ e] })
    | .ok r =>
      let bot_reply := extractReply r
      let result := [("response", bot_reply)] ++
        (match image_url with
         | some u => if u = "" then [] else [("image_url", u)]
         | none => [])
      (jsonResponse 200 result,
       { storageCalls := t.storageCalls, sendCalls := t.sendCalls + 1, log := t.log })

/-- Body of the `try` block of `chat_send` (lines 83–188).  A `.error`
result models an exception escaping to the outer `except` handler; the
only such exceptions the model produces (`AttributeError` from
`.strip()`, `TypeError` from `',' in base64_image`) are raised before
any side effect, so no trace is lost on that path. -/
def chat_send_body (env : Env) (req : Request) : Except String (HttpResponse × Trace) :=
  if pyStartsWith req.content_type "multipart/form-data" then
    let user_message := stripFormMessage req.post_message
    match req.files_image with
    | some uploaded_image =>
      if ¬ pyStartsWith uploaded_image.content_type "image/" then
        .ok (jsonResponse 400 [("response", INVALID_FILE_TYPE_MSG)], Trace.empty)
      else if uploaded_image.bytes.length > env.MAX_UPLOAD_SIZE then
        .ok (jsonResponse 400 [("response", tooLargeMsg env.MAX_UPLOAD_SIZE)], Trace.empty)
      else
        let saveOutcome :=
          env.storageSave uploaded_image.bytes ("chat_uploads/" ++ uploaded_image.name)
        let image_url := match saveOutcome with
          | .ok url => some url
          | .error _ => none
        let saveLog := match saveOutcome with
          | .ok _ => []
          | .error e => ["Error saving uploaded image: " ++ e]
        let t1 : Trace := { storageCalls := 1, sendCalls := 0, log := saveLog }
        if env.pilOpenOk uploaded_image.bytes then
          .ok (finishTurn env user_message (some uploaded_image.bytes) image_url t1)
        else
          .ok (jsonResponse 400 [("response", FAILED_PROCESS_MSG)],
               { t1 with log := t1.log ++ ["Error opening PIL image from uploaded file"] })
    | none =>
      .ok (finishTurn env user_message none none Trace.empty)
  else
    match req.json_body with
    | none => .ok (jsonResponse 400 [("response", INVALID_JSON_MSG)], Trace.empty)
    | some (msgVal, imgVal) =>
      match stripMessage msgVal with
      | .error e => .error e
      | .ok user_message =>
        match imageField imgVal with
        | .error e => .error e
        | .ok none =>
          .ok (finishTurn env user_message none none Trace.empty)
        | .ok (some base64_image) =>
          let base64_data := dataUrlPayload base64_image
          match pyB64Decode base64_data with
          | .error _ =>
            .ok (jsonResponse 400 [("response", INVALID_B64_MSG)], Trace.empty)
          | .ok binary =>
            if binary.length > env.MAX_UPLOAD_SIZE then
              .ok (jsonResponse 400 [("response", tooLargeMsg env.MAX_UPLOAD_SIZE)], Trace.empty)
            else if ¬ env.pilOpenOk binary then
              .ok (jsonResponse 400 [("response", FAILED_DECODE_MSG)], Trace.empty)
            else
              let saveOutcome := env.storageSave binary "chat_uploads/uploaded_from_json.png"
              let image_url := match saveOutcome with
                | .ok url => some url
                | .error _ => none
              let saveLog := match saveOutcome with
                | .ok _ => []
                | .error _ =>
                  ["Failed to save base64 image to storage; continuing without saved URL."]
              let t1 : Trace := { storageCalls := 1, sendCalls := 0, log := saveLog }
              .ok (finishTurn env user_message (some binary) image_url t1)

/-- The view `chat_send` (lines 70–193): the `chat_session` guard, the
`try` body, and the catch-all `except` clause. -/
def chat_send (env : Env) (req : Request) : HttpResponse × Trace :=
  if ¬ env.chat_session then
    (jsonResponse 503 [("response", UNAVAILABLE_MSG)], Trace.empty)
  else
    match chat_send_body env req with
    | .ok res => res
    | .error e =>
      (jsonResponse 500 [("response", INTERNAL_ERROR_MSG)],
       { storageCalls := 0, sendCalls := 0,
         log := ["Unexpected error in chat_send: " ++ e] })

/-! ## Concrete fixtures used to instantiate the theorems -/

/-- A provider response with a usable `text` attribute. -/
def sampleResponse : ProviderResponse := ⟨some "hello there", false, none, "resp"⟩

/-- An environment where everything works: session constructed, 8-byte
upload limit, PIL accepts any blob of at least two bytes, storage and
provider succeed. -/
def okEnv : Env where
  chat_session := true
  MAX_UPLOAD_SIZE := 8
  pilOpenOk := fun b => 2 ≤ b.length
  storageSave := fun _ p => .ok ("/media/" ++ p)
  send_message := fun _ => .ok sampleResponse

/-- The degraded environment: `chat_session` was never constructed. -/
def downEnv : Env := { okEnv with chat_session := false }

/-- An environment whose provider call always raises. -/
def errEnv : Env := { okEnv with send_message := fun _ => .error "boom" }

/-- An environment whose provider returns a value with no usable text and
an empty `str()` rendering. -/
def blankReplyEnv : Env :=
  { okEnv with send_message := fun _ => .ok ⟨none, false, none, ""⟩ }

/-- An environment where PIL rejects every blob. -/
def pilFailEnv : Env := { okEnv with pilOpenOk := fun _ => false }

/-- An environment whose blob store always raises. -/
def storeFailEnv : Env := { okEnv with storageSave := fun _ _ => .error "disk full" }

/-- An environment with a 3-byte upload limit. -/
def tinyEnv : Env := { okEnv with MAX_UPLOAD_SIZE := 3 }

/-- A small PNG-declared upload of four bytes. -/
def sampleUpload : UploadedFile := ⟨"a.png", "image/png", [1, 2, 3, 4]⟩

def reqEmptyJson : Request := ⟨"application/json", none, none, some (none, none)⟩
def reqMpHi : Request := ⟨"multipart/form-data", some "hi", none, none⟩
def reqMpSpaces : Request := ⟨"multipart/form-data", some "   ", none, none⟩
def reqMpImg : Request := ⟨"multipart/form-data", some "hi", some sampleUpload, none⟩
def reqJsonB64Bad : Request :=
  ⟨"application/json", none, none, some (none, some (.pyStr "not-base64!!"))⟩
def reqJsonImg : Request :=
  ⟨"application/json", none, none,
   some (some (.pyStr "yo"), some (.pyStr "data:image/png;base64,aGk="))⟩
def reqJsonMsgFive : Request :=
  ⟨"application/json", none, none, some (some (.pyInt 5), none)⟩

/-! ## Helper lemmas -/

theorem afterComma_append (l r : List Char) (h : l.contains ',' = false) :
    afterComma (l ++ ',' :: r) = r := by
  induction l with
  | nil => simp [afterComma]
  | cons c t ih =>
    simp only [List.contains, List.elem_cons] at h
    by_cases hc : c = ','
    · subst hc; simp at h
    · have hbeq : (',' == c) = false := by
        simp [BEq.beq]
        exact fun hh => hc hh.symm
      rw [List.contains] at ih
      simp only [hbeq] at h
      simpa [afterComma, hc] using ih h

theorem data_append (s t : String) : (s ++ t).data = s.data ++ t.data := rfl

theorem mk_data (s : String) : String.mk s.data = s := rfl

/-- On a comma-containing string, `dataUrlPayload` keeps exactly the part
after the first comma. -/
theorem dataUrlPayload_comma (pre payload : String)
    (h : pre.data.contains ',' = false) :
    dataUrlPayload (pre ++ "," ++ payload) = payload := by
  have hdata : (pre ++ "," ++ payload).data = pre.data ++ ',' :: payload.data := by
    rw [data_append, data_append]
    have hc : (",".data) = [','] := rfl
    rw [hc, List.append_assoc]
    rfl
  have hmem : ((pre ++ "," ++ payload).data).contains ',' = true := by
    rw [hdata]
    have : ',' ∈ pre.data ++ ',' :: payload.data := by simp
    exact List.elem_iff.mpr this
  unfold dataUrlPayload
  rw [hmem]
  simp only [hdata, afterComma_append pre.data payload.data h]
  rfl

/-- A string of the form `pre ++ "," ++ payload` is never empty. -/
theorem append_comma_ne_empty (pre payload : String) :
    pre ++ "," ++ payload ≠ "" := by
  intro h
  have hd : (pre ++ "," ++ payload).data = "".data := congrArg String.data h
  rw [data_append, data_append] at hd
  simp at hd

/-! ## Claim theorems -/

/-- C1: when the conversation session was never successfully constructed,
every POST request — whatever its content type or body — receives HTTP
503 with body `{"response": "AI service is unavailable due to
configuration error."}`, and nothing else happens: the trace is empty,
so no normalization, validation, storage call or provider call was
performed. -/
theorem unavailable_guard (env : Env) (req : Request)
    (h : env.chat_session = false) :
    chat_send env req =
      (jsonResponse 503 [("response", UNAVAILABLE_MSG)], Trace.empty) := by
  simp [chat_send, h]

theorem unavailable_guard_witness :
    chat_send downEnv reqMpImg =
      (jsonResponse 503 [("response", UNAVAILABLE_MSG)], Trace.empty) :=
  unavailable_guard downEnv reqMpImg rfl

/-- C2: a request whose normalized turn has empty trimmed text and no
image — on the multipart path an absent or whitespace `message` field and
no `image` file, on the JSON path a falsy-or-whitespace `message` entry
and a falsy `image` entry — receives exactly
`{"response": "Please send text or an image."}` with HTTP 200, and
`send_message` is never invoked (the trace is empty). -/
theorem empty_turn_soft_fail (env : Env) (req : Request)
    (hs : env.chat_session = true)
    (h : (pyStartsWith req.content_type "multipart/form-data" = true ∧
          stripFormMessage req.post_message = "" ∧ req.files_image = none) ∨
         (pyStartsWith req.content_type "multipart/form-data" = false ∧
          ∃ m i, req.json_body = some (m, i) ∧ stripMessage m = .ok "" ∧
            imageField i = .ok none)) :
    chat_send env req =
      (jsonResponse 200 [("response", NOTHING_TO_SEND_MSG)], Trace.empty) := by
  rcases h with ⟨hct, hm, hf⟩ | ⟨hct, m, i, hb, hm, hi⟩
  · simp [chat_send, chat_send_body, hs, hct, hm, hf, finishTurn]
  · simp [chat_send, chat_send_body, hs, hct, hb, hm, hi, finishTurn]

theorem empty_turn_soft_fail_witness :
    chat_send okEnv reqMpSpaces =
      (jsonResponse 200 [("response", NOTHING_TO_SEND_MSG)], Trace.empty) :=
  empty_turn_soft_fail okEnv reqMpSpaces rfl
    (Or.inl ⟨by decide, by decide, rfl⟩)

/-- The size-rejection message always begins with `'I'`. -/
theorem tooLargeMsg_head (m : Nat) : (tooLargeMsg m).data.head? = some 'I' := by
  unfold tooLargeMsg
  rw [data_append, data_append]
  rfl

/-- A string beginning with `'F'` is never the size-rejection message. -/
theorem ne_tooLargeMsg {s : String} (h : s.data.head? = some 'F') (m : Nat) :
    s ≠ tooLargeMsg m := by
  intro he
  rw [he, tooLargeMsg_head] at h
  exact absurd h (by decide)

/-- A 400 response whose message begins with `'F'` differs from the
size-rejection response. -/
theorem failed_ne_tooLarge_resp (msg : String) (h : msg.data.head? = some 'F')
    (m : Nat) :
    jsonResponse 400 [("response", msg)] ≠
      jsonResponse 400 [("response", tooLargeMsg m)] := by
  intro he
  have hb := congrArg HttpResponse.body he
  simp [jsonResponse] at hb
  exact ne_tooLargeMsg h m hb

/-- The shared handler tail only ever answers 200 or 500. -/
theorem finishTurn_status (env : Env) (um : String) (pi : Option (List Nat))
    (iu : Option String) (t : Trace) :
    (finishTurn env um pi iu t).1.status = 200 ∨
    (finishTurn env um pi iu t).1.status = 500 := by
  unfold finishTurn
  split
  · left; rfl
  · split
    · right; rfl
    · left; rfl

/-- The shared handler tail never answers a 400 response. -/
theorem finishTurn_fst_ne_400 (env : Env) (um : String) (pi : Option (List Nat))
    (iu : Option String) (t : Trace) (resp : HttpResponse)
    (h : resp.status = 400) :
    (finishTurn env um pi iu t).1 ≠ resp := by
  intro he
  rcases finishTurn_status env um pi iu t with h2 | h2 <;>
    rw [he, h] at h2 <;> simp at h2

/-- C3: an image strictly larger than the configured `MAX_UPLOAD_SIZE` is
rejected with HTTP 400 and the message stating the configured limit in
MiB, on the multipart path and on the JSON/base64 path alike; the
rejection message contains the configured limit in MiB; and an image of
at most the limit (in particular exactly the limit) passes the size
check — on either path the response is never the size rejection. -/
theorem size_limit_enforced (env : Env) (hs : env.chat_session = true) :
    (List.IsInfix (toString (env.MAX_UPLOAD_SIZE / (1024 * 1024))).data
       (tooLargeMsg env.MAX_UPLOAD_SIZE).data) ∧
    (∀ (req : Request) (f : UploadedFile),
       pyStartsWith req.content_type "multipart/form-data" = true →
       req.files_image = some f →
       pyStartsWith f.content_type "image/" = true →
       env.MAX_UPLOAD_SIZE < f.bytes.length →
       chat_send env req =
         (jsonResponse 400 [("response", tooLargeMsg env.MAX_UPLOAD_SIZE)],
          Trace.empty)) ∧
    (∀ (req : Request) (m : Option PyVal) (um s : String) (binary : List Nat),
       pyStartsWith req.content_type "multipart/form-data" = false →
       req.json_body = some (m, some (.pyStr s)) → s ≠ "" →
       stripMessage m = .ok um →
       pyB64Decode (dataUrlPayload s) = .ok binary →
       env.MAX_UPLOAD_SIZE < binary.length →
       chat_send env req =
         (jsonResponse 400 [("response", tooLargeMsg env.MAX_UPLOAD_SIZE)],
          Trace.empty)) ∧
    (∀ (req : Request) (f : UploadedFile),
       pyStartsWith req.content_type "multipart/form-data" = true →
       req.files_image = some f →
       pyStartsWith f.content_type "image/" = true →
       f.bytes.length ≤ env.MAX_UPLOAD_SIZE →
       (chat_send env req).1 ≠
         jsonResponse 400 [("response", tooLargeMsg env.MAX_UPLOAD_SIZE)]) ∧
    (∀ (req : Request) (m : Option PyVal) (um s : String) (binary : List Nat),
       pyStartsWith req.content_type "multipart/form-data" = false →
       req.json_body = some (m, some (.pyStr s)) → s ≠ "" →
       stripMessage m = .ok um →
       pyB64Decode (dataUrlPayload s) = .ok binary →
       binary.length ≤ env.MAX_UPLOAD_SIZE →
       (chat_send env req).1 ≠
         jsonResponse 400 [("response", tooLargeMsg env.MAX_UPLOAD_SIZE)]) := by
  refine ⟨?_, ?_, ?_, ?_, ?_⟩
  · exact ⟨"Image too large (max ".data, "MB).".data, by
      unfold tooLargeMsg
      rw [data_append, data_append]⟩
  · intro req f hct hf hmime hsize
    simp [chat_send, hs, chat_send_body, hct, hf, hmime, hsize]
  · intro req m um s binary hct hb hne hm hdec hsize
    have hif : imageField (some (.pyStr s)) = .ok (some s) := by
      simp [imageField, PyVal.truthy, hne]
    simp [chat_send, hs, chat_send_body, hct, hb, hm, hif, hdec, hsize]
  · intro req f hct hf hmime hsize
    have hnl : ¬ (env.MAX_UPLOAD_SIZE < f.bytes.length) := not_lt.mpr hsize
    cases hpil : env.pilOpenOk f.bytes with
    | true =>
      simp [chat_send, hs, chat_send_body, hct, hf, hmime, hnl, hpil]
      exact finishTurn_fst_ne_400 _ _ _ _ _ _ rfl
    | false =>
      simp [chat_send, hs, chat_send_body, hct, hf, hmime, hnl, hpil]
      exact failed_ne_tooLarge_resp FAILED_PROCESS_MSG rfl env.MAX_UPLOAD_SIZE
  · intro req m um s binary hct hb hne hm hdec hsize
    have hnl : ¬ (env.MAX_UPLOAD_SIZE < binary.length) := not_lt.mpr hsize
    have hif : imageField (some (.pyStr s)) = .ok (some s) := by
      simp [imageField, PyVal.truthy, hne]
    cases hpil : env.pilOpenOk binary with
    | true =>
      simp [chat_send, hs, chat_send_body, hct, hb, hm, hif, hdec, hnl, hpil]
      exact finishTurn_fst_ne_400 _ _ _ _ _ _ rfl
    | false =>
      simp [chat_send, hs, chat_send_body, hct, hb, hm, hif, hdec, hnl, hpil]
      exact failed_ne_tooLarge_resp FAILED_DECODE_MSG rfl env.MAX_UPLOAD_SIZE

theorem size_limit_enforced_witness :
    chat_send tinyEnv reqMpImg =
      (jsonResponse 400 [("response", tooLargeMsg tinyEnv.MAX_UPLOAD_SIZE)],
       Trace.empty) :=
  (size_limit_enforced tinyEnv rfl).2.1 reqMpImg sampleUpload
    (by decide) rfl (by decide) (by decide)

/-- C4: on the JSON path, an `image` string whose extracted payload
`base64.b64decode` refuses is rejected with HTTP 400 and body
`{"response": "Invalid base64 image data."}`, with no side effect. -/
theorem invalid_base64_rejected (env : Env) (req : Request)
    (m : Option PyVal) (um s : String)
    (hs : env.chat_session = true)
    (hct : pyStartsWith req.content_type "multipart/form-data" = false)
    (hb : req.json_body = some (m, some (.pyStr s)))
    (hm : stripMessage m = .ok um)
    (hne : s ≠ "")
    (hdec : b64DecodeFails (dataUrlPayload s) = true) :
    chat_send env req =
      (jsonResponse 400 [("response", INVALID_B64_MSG)], Trace.empty) := by
  have hif : imageField (some (.pyStr s)) = .ok (some s) := by
    simp [imageField, PyVal.truthy, hne]
  obtain ⟨err, herr⟩ : ∃ err, pyB64Decode (dataUrlPayload s) = .error err := by
    unfold b64DecodeFails at hdec
    cases hpb : pyB64Decode (dataUrlPayload s) with
    | error e => exact ⟨e, rfl⟩
    | ok v => rw [hpb] at hdec; simp at hdec
  simp [chat_send, hs, chat_send_body, hct, hb, hm, hif, herr]

theorem invalid_base64_rejected_witness :
    chat_send okEnv reqJsonB64Bad =
      (jsonResponse 400 [("response", INVALID_B64_MSG)], Trace.empty) :=
  invalid_base64_rejected okEnv reqJsonB64Bad none "" "not-base64!!"
    rfl (by decide) rfl rfl (by decide) (by decide)

/-- C5: the payload the handler decodes is the substring after the first
comma of the `image` string (the whole string when there is no comma),
and the handler's outcome is independent of the discarded data-URL
prefix: two JSON requests whose `image` strings share the part after the
first comma are treated identically. -/
theorem data_url_prefix_discarded :
    (∀ pre payload : String, pre.data.contains ',' = false →
       dataUrlPayload (pre ++ "," ++ payload) = payload) ∧
    (∀ s : String, s.data.contains ',' = false → dataUrlPayload s = s) ∧
    (∀ (env : Env) (ct : String) (m : Option PyVal) (pre1 pre2 payload : String),
       pre1.data.contains ',' = false → pre2.data.contains ',' = false →
       chat_send env ⟨ct, none, none, some (m, some (.pyStr (pre1 ++ "," ++ payload)))⟩ =
       chat_send env ⟨ct, none, none, some (m, some (.pyStr (pre2 ++ "," ++ payload)))⟩) := by
  refine ⟨dataUrlPayload_comma, ?_, ?_⟩
  · intro s h
    unfold dataUrlPayload
    rw [h]
    simp
  · intro env ct m pre1 pre2 payload h1 h2
    by_cases hct : pyStartsWith ct "multipart/form-data"
    · simp [chat_send, chat_send_body, hct]
    · have hne1 := append_comma_ne_empty pre1 payload
      have hne2 := append_comma_ne_empty pre2 payload
      simp [chat_send, chat_send_body, hct, imageField, PyVal.truthy, hne1, hne2,
        dataUrlPayload_comma pre1 payload h1, dataUrlPayload_comma pre2 payload h2]

theorem data_url_prefix_discarded_witness :
    dataUrlPayload ("data:image/png;base64" ++ "," ++ "aGk=") = "aGk=" :=
  data_url_prefix_discarded.1 "data:image/png;base64" "aGk=" (by decide)

/-- C10: a JSON body whose `message` entry is a truthy non-string does
not produce a 400 malformed-input rejection: `.strip()` raises
`AttributeError`, the outer catch-all absorbs it, and the handler
returns HTTP 500 with body `{"response": "Internal server error."}`,
logging the detail. -/
theorem truthy_nonstring_message (env : Env) (req : Request)
    (m : PyVal) (i : Option PyVal)
    (hs : env.chat_session = true)
    (hct : pyStartsWith req.content_type "multipart/form-data" = false)
    (hb : req.json_body = some (some m, i))
    (ht : m.truthy = true)
    (hns : ∀ s, m ≠ .pyStr s) :
    chat_send env req =
      (jsonResponse 500 [("response", INTERNAL_ERROR_MSG)],
       ⟨0, 0, ["Unexpected error in chat_send: AttributeError: object has no attribute strip"]⟩) := by
  have hsm : stripMessage (some m) =
      .error "AttributeError: object has no attribute strip" := by
    cases m with
    | pyNone => simp [PyVal.truthy] at ht
    | pyStr s => exact absurd rfl (hns s)
    | pyInt n => simp [stripMessage, ht]
    | pyBool b => simp [stripMessage, ht]
  simp [chat_send, hs, chat_send_body, hct, hb, hsm]

theorem truthy_nonstring_message_witness :
    chat_send okEnv reqJsonMsgFive =
      (jsonResponse 500 [("response", INTERNAL_ERROR_MSG)],
       ⟨0, 0, ["Unexpected error in chat_send: AttributeError: object has no attribute strip"]⟩) :=
  truthy_nonstring_message okEnv reqJsonMsgFive (.pyInt 5) none
    rfl (by decide) rfl (by decide) (fun s h => by cases h)

/-- C8: when the request carries an image that passes validation and the
provider call succeeds, a raised exception from the blob store does not
change the outcome: the handler still answers HTTP 200 with the AI
reply, merely without an `image_url` key, on the multipart path and on
the JSON path alike (the failure is only logged). -/
theorem storage_failure_nonfatal (env : Env) (hs : env.chat_session = true) :
    (∀ (req : Request) (f : UploadedFile) (um d : String) (r : ProviderResponse),
       pyStartsWith req.content_type "multipart/form-data" = true →
       req.files_image = some f →
       pyStartsWith f.content_type "image/" = true →
       f.bytes.length ≤ env.MAX_UPLOAD_SIZE →
       stripFormMessage req.post_message = um →
       env.storageSave f.bytes ("chat_uploads/" ++ f.name) = .error d →
       env.pilOpenOk f.bytes = true →
       env.send_message (contentsOf um (some f.bytes)) = .ok r →
       chat_send env req =
         (jsonResponse 200 [("response", extractReply r)],
          ⟨1, 1, ["Error saving uploaded image: " ++ d]⟩)) ∧
    (∀ (req : Request) (m : Option PyVal) (um s d : String) (binary : List Nat)
       (r : ProviderResponse),
       pyStartsWith req.content_type "multipart/form-data" = false →
       req.json_body = some (m, some (.pyStr s)) → s ≠ "" →
       stripMessage m = .ok um →
       pyB64Decode (dataUrlPayload s) = .ok binary →
       binary.length ≤ env.MAX_UPLOAD_SIZE →
       env.pilOpenOk binary = true →
       env.storageSave binary "chat_uploads/uploaded_from_json.png" = .error d →
       env.send_message (contentsOf um (some binary)) = .ok r →
       chat_send env req =
         (jsonResponse 200 [("response", extractReply r)],
          ⟨1, 1,
           ["Failed to save base64 image to storage; continuing without saved URL."]⟩)) := by
  constructor
  · intro req f um d r hct hf hmime hsize hum hsave hpil hsend
    have hnl : ¬ (env.MAX_UPLOAD_SIZE < f.bytes.length) := not_lt.mpr hsize
    simp [chat_send, hs, chat_send_body, hct, hf, hmime, hnl, hpil, hsave, hum,
      finishTurn, hsend]
  · intro req m um s d binary r hct hb hne hm hdec hsize hpil hsave hsend
    have hnl : ¬ (env.MAX_UPLOAD_SIZE < binary.length) := not_lt.mpr hsize
    have hif : imageField (some (.pyStr s)) = .ok (some s) := by
      simp [imageField, PyVal.truthy, hne]
    simp [chat_send, hs, chat_send_body, hct, hb, hm, hif, hdec, hnl, hpil, hsave,
      finishTurn, hsend]

theorem storage_failure_nonfatal_witness :
    chat_send storeFailEnv reqMpImg =
      (jsonResponse 200 [("response", extractReply sampleResponse)],
       ⟨1, 1, ["Error saving uploaded image: disk full"]⟩) :=
  (storage_failure_nonfatal storeFailEnv rfl).1 reqMpImg sampleUpload "hi" "disk full"
    sampleResponse (by decide) rfl (by decide) (by decide) (by decide) rfl
    (by decide) rfl

/-- C9 counterexample: a multipart request whose image passes the MIME
and size checks but is rejected as unreadable (PIL cannot open it) has
already triggered a blob-store write — the handler answers 400
"Failed to process uploaded image." with one storage call in its
trace, refuting the claim that a rejected image never triggers a
blob-store write. -/
theorem storage_before_decodability_counterexample :
    (chat_send pilFailEnv reqMpImg).1 =
      jsonResponse 400 [("response", FAILED_PROCESS_MSG)] ∧
    (chat_send pilFailEnv reqMpImg).2.storageCalls = 1 := by
  constructor
  · rfl
  · rfl

/-- C9 amended: on the JSON path the blob store is invoked only after
every validation check (base64 decodability, size, raster decodability)
has passed, so any rejected JSON image causes no storage call; on the
multipart path the blob store is invoked after the MIME and size checks
but before the raster-decodability check, so a multipart image rejected
as unreadable has nevertheless triggered exactly one blob-store write. -/
theorem blob_store_ordering (env : Env) (hs : env.chat_session = true) :
    (∀ (req : Request) (m : Option PyVal) (um s : String),
       pyStartsWith req.content_type "multipart/form-data" = false →
       req.json_body = some (m, some (.pyStr s)) → s ≠ "" →
       stripMessage m = .ok um →
       b64DecodeFails (dataUrlPayload s) = true →
       (chat_send env req).2.storageCalls = 0) ∧
    (∀ (req : Request) (m : Option PyVal) (um s : String) (binary : List Nat),
       pyStartsWith req.content_type "multipart/form-data" = false →
       req.json_body = some (m, some (.pyStr s)) → s ≠ "" →
       stripMessage m = .ok um →
       pyB64Decode (dataUrlPayload s) = .ok binary →
       env.MAX_UPLOAD_SIZE < binary.length →
       (chat_send env req).2.storageCalls = 0) ∧
    (∀ (req : Request) (m : Option PyVal) (um s : String) (binary : List Nat),
       pyStartsWith req.content_type "multipart/form-data" = false →
       req.json_body = some (m, some (.pyStr s)) → s ≠ "" →
       stripMessage m = .ok um →
       pyB64Decode (dataUrlPayload s) = .ok binary →
       binary.length ≤ env.MAX_UPLOAD_SIZE →
       env.pilOpenOk binary = false →
       (chat_send env req).2.storageCalls = 0) ∧
    (∀ (req : Request) (f : UploadedFile),
       pyStartsWith req.content_type "multipart/form-data" = true →
       req.files_image = some f →
       pyStartsWith f.content_type "image/" = false →
       (chat_send env req).2.storageCalls = 0) ∧
    (∀ (req : Request) (f : UploadedFile),
       pyStartsWith req.content_type "multipart/form-data" = true →
       req.files_image = some f →
       pyStartsWith f.content_type "image/" = true →
       env.MAX_UPLOAD_SIZE < f.bytes.length →
       (chat_send env req).2.storageCalls = 0) ∧
    (∀ (req : Request) (f : UploadedFile),
       pyStartsWith req.content_type "multipart/form-data" = true →
       req.files_image = some f →
       pyStartsWith f.content_type "image/" = true →
       f.bytes.length ≤ env.MAX_UPLOAD_SIZE →
       env.pilOpenOk f.bytes = false →
       (chat_send env req).1 = jsonResponse 400 [("response", FAILED_PROCESS_MSG)] ∧
       (chat_send env req).2.storageCalls = 1) := by
  refine ⟨?_, ?_, ?_, ?_, ?_, ?_⟩
  · intro req m um s hct hb hne hm hdec
    have hif : imageField (some (.pyStr s)) = .ok (some s) := by
      simp [imageField, PyVal.truthy, hne]
    obtain ⟨err, herr⟩ : ∃ err, pyB64Decode (dataUrlPayload s) = .error err := by
      unfold b64DecodeFails at hdec
      cases hpb : pyB64Decode (dataUrlPayload s) with
      | error e => exact ⟨e, rfl⟩
      | ok v => rw [hpb] at hdec; simp at hdec
    simp [chat_send, hs, chat_send_body, Trace.empty, hct, hb, hm, hif, herr]
  · intro req m um s binary hct hb hne hm hdec hsize
    have hif : imageField (some (.pyStr s)) = .ok (some s) := by
      simp [imageField, PyVal.truthy, hne]
    simp [chat_send, hs, chat_send_body, Trace.empty, hct, hb, hm, hif, hdec, hsize]
  · intro req m um s binary hct hb hne hm hdec hsize hpil
    have hnl : ¬ (env.MAX_UPLOAD_SIZE < binary.length) := not_lt.mpr hsize
    have hif : imageField (some (.pyStr s)) = .ok (some s) := by
      simp [imageField, PyVal.truthy, hne]
    simp [chat_send, hs, chat_send_body, Trace.empty, hct, hb, hm, hif, hdec, hnl, hpil]
  · intro req f hct hf hmime
    simp [chat_send, hs, chat_send_body, Trace.empty, hct, hf, hmime]
  · intro req f hct hf hmime hsize
    simp [chat_send, hs, chat_send_body, Trace.empty, hct, hf, hmime, hsize]
  · intro req f hct hf hmime hsize hpil
    have hnl : ¬ (env.MAX_UPLOAD_SIZE < f.bytes.length) := not_lt.mpr hsize
    simp [chat_send, hs, chat_send_body, Trace.empty, hct, hf, hmime, hnl, hpil]

theorem blob_store_ordering_witness :
    (chat_send pilFailEnv reqJsonImg).2.storageCalls = 0 :=
  (blob_store_ordering pilFailEnv rfl).2.2.1 reqJsonImg (some (.pyStr "yo")) "yo"
    "data:image/png;base64,aGk=" [104, 105]
    (by decide) rfl (by decide) rfl rfl (by decide) rfl

/-- When the provider always raises, the shared tail either short-circuits
with the "nothing to send" answer or maps the exception to the generic
500 response, logging the detail. -/
theorem finishTurn_provider_error (env : Env) (e : String)
    (hp : ∀ c, env.send_message c = .error e)
    (um : String) (pi : Option (List Nat)) (iu : Option String) (t : Trace) :
    finishTurn env um pi iu t =
      (jsonResponse 200 [("response", NOTHING_TO_SEND_MSG)], t) ∨
    finishTurn env um pi iu t =
      (jsonResponse 500 [("response", PROVIDER_ERROR_MSG)],
       ⟨t.storageCalls, t.sendCalls + 1,
        t.log ++ ["Gemini API error while sending message: " ++ e]⟩) := by
  unfold finishTurn
  split
  · left; rfl
  · rw [hp]
    right; rfl

/-- Helper for the leaf goals of `chat_send_body_sendCalls` that end in
`finishTurn`. -/
theorem finishTurn_body_cases (env : Env) (e : String)
    (hp : ∀ c, env.send_message c = .error e)
    (um : String) (pi : Option (List Nat)) (iu : Option String) (t : Trace)
    (ht : t.sendCalls = 0) :
    (∃ resp t2, (Except.ok (finishTurn env um pi iu t) : Except String _) =
        .ok (resp, t2) ∧ t2.sendCalls = 0) ∨
    (∃ t2 : Trace, t2.sendCalls = 0 ∧
       (Except.ok (finishTurn env um pi iu t) : Except String _) =
         .ok (jsonResponse 500 [("response", PROVIDER_ERROR_MSG)],
              ⟨t2.storageCalls, t2.sendCalls + 1,
               t2.log ++ ["Gemini API error while sending message: " ++ e]⟩)) ∨
    (∃ msg, (Except.ok (finishTurn env um pi iu t) : Except String _) =
        .error msg) := by
  rcases finishTurn_provider_error env e hp um pi iu t with h | h <;> rw [h]
  · exact Or.inl ⟨_, _, rfl, ht⟩
  · exact Or.inr (Or.inl ⟨t, ht, rfl⟩)

/-- Every run of the `try` body either performs no provider call, or
performs exactly one that raised and yields the generic 500 provider
response with the detail logged, or raises out of the body. -/
theorem chat_send_body_sendCalls (env : Env) (e : String)
    (hp : ∀ c, env.send_message c = .error e) (req : Request) :
    (∃ resp t, chat_send_body env req = .ok (resp, t) ∧ t.sendCalls = 0) ∨
    (∃ t : Trace, t.sendCalls = 0 ∧
       chat_send_body env req =
         .ok (jsonResponse 500 [("response", PROVIDER_ERROR_MSG)],
              ⟨t.storageCalls, t.sendCalls + 1,
               t.log ++ ["Gemini API error while sending message: " ++ e]⟩)) ∨
    (∃ msg, chat_send_body env req = .error msg) := by
  simp only [chat_send_body]
  iterate 8 (all_goals (first | split | skip))
  all_goals first
    | exact Or.inl ⟨_, _, rfl, rfl⟩
    | exact Or.inr (Or.inr ⟨_, rfl⟩)
    | exact finishTurn_body_cases env e hp _ _ _ _ rfl

/-- C6: for every request on which the provider call was actually made
and raised, the handler answers HTTP 500 with the fixed body
`{"response": "Sorry, the AI assistant encountered an error. Please try
again."}`, without an `image_url` key; the exception detail appears in
the operator log and the user-visible payload is a constant that does
not depend on it. -/
theorem provider_error_contract (env : Env) (req : Request) (e : String)
    (hs : env.chat_session = true)
    (hp : ∀ c, env.send_message c = .error e)
    (hcalled : 0 < (chat_send env req).2.sendCalls) :
    (chat_send env req).1 = jsonResponse 500 [("response", PROVIDER_ERROR_MSG)] ∧
    ((chat_send env req).1).body.lookup "image_url" = none ∧
    ("Gemini API error while sending message: " ++ e) ∈ (chat_send env req).2.log := by
  rcases chat_send_body_sendCalls env e hp req with ⟨resp, t, hb, ht⟩ | ⟨t, ht, hb⟩ |
      ⟨msg, hb⟩
  · rw [show chat_send env req = (resp, t) by simp [chat_send, hs, hb]] at hcalled
    rw [ht] at hcalled
    exact absurd hcalled (by simp)
  · rw [show chat_send env req =
        (jsonResponse 500 [("response", PROVIDER_ERROR_MSG)],
         ⟨t.storageCalls, t.sendCalls + 1,
          t.log ++ ["Gemini API error while sending message: " ++ e]⟩) by
      simp [chat_send, hs, hb]]
    refine ⟨rfl, by simp [jsonResponse, List.lookup], by simp⟩
  · rw [show chat_send env req =
        (jsonResponse 500 [("response", INTERNAL_ERROR_MSG)],
         ⟨0, 0, ["Unexpected error in chat_send: " ++ msg]⟩) by
      simp [chat_send, hs, hb]] at hcalled
    exact absurd hcalled (by simp)

theorem provider_error_contract_witness :
    (chat_send errEnv reqMpHi).1 =
      jsonResponse 500 [("response", PROVIDER_ERROR_MSG)] ∧
    ((chat_send errEnv reqMpHi).1).body.lookup "image_url" = none ∧
    ("Gemini API error while sending message: " ++ "boom") ∈
      (chat_send errEnv reqMpHi).2.log :=
  provider_error_contract errEnv reqMpHi "boom" rfl (fun _ => rfl) (by decide)

/-- C7 counterexample: a provider response with no usable `text`
attribute, not a dictionary, and an empty `str()` rendering makes the
success payload's `response` field the empty string, on a request whose
provider call did not raise — refuting the claim that the `response`
field is never empty. -/
theorem empty_reply_counterexample :
    (chat_send blankReplyEnv reqMpHi).1 = jsonResponse 200 [("response", "")] ∧
    (chat_send blankReplyEnv reqMpHi).2.sendCalls = 1 := by
  exact ⟨rfl, rfl⟩

/-- C7 amended: the reply string is extracted by trying, in order, the
`text` attribute, then the `text` dictionary entry when the response is
a dict, then the stringification of the whole response (falsy values
falling through at each step); the success payload's `response` field
is exactly the extracted string; and it is non-empty whenever the
stringification of the response object is non-empty (with an empty
stringification and no earlier truthy step it can be empty). -/
theorem reply_extraction_order :
    (∀ (r : ProviderResponse) (t : String),
       r.textAttr = some t → t ≠ "" → extractReply r = t) ∧
    (∀ (r : ProviderResponse) (t : String),
       (r.textAttr = none ∨ r.textAttr = some "") → r.isDict = true →
       r.dictText = some t → t ≠ "" → extractReply r = t) ∧
    (∀ r : ProviderResponse,
       (r.textAttr = none ∨ r.textAttr = some "") →
       (r.isDict = false ∨ r.dictText = none ∨ r.dictText = some "") →
       extractReply r = r.strRepr) ∧
    (∀ r : ProviderResponse, r.strRepr ≠ "" → extractReply r ≠ "") ∧
    (∀ (env : Env) (um : String) (pi : Option (List Nat)) (iu : Option String)
       (t : Trace) (r : ProviderResponse),
       ¬ (um = "" ∧ pi = none) →
       env.send_message (contentsOf um pi) = .ok r →
       ((finishTurn env um pi iu t).1.body.lookup "response" =
         some (extractReply r))) := by
  refine ⟨?_, ?_, ?_, ?_, ?_⟩
  · intro r t ha hne
    simp [extractReply, pyOrOpt, ha, hne]
  · intro r t ha hd hdt hne
    rcases ha with ha | ha <;> simp [extractReply, pyOrOpt, ha, hd, hdt, hne]
  · intro r ha hd
    rcases ha with ha | ha <;> rcases hd with hd | hd | hd <;>
      cases hid : r.isDict <;> simp_all [extractReply, pyOrOpt]
  · intro r hne
    unfold extractReply
    split
    · split
      · exact hne
      · next h => exact h
    · exact hne
  · intro env um pi iu t r hne hsend
    simp [finishTurn, hne, hsend, List.lookup]

theorem reply_extraction_order_witness :
    extractReply sampleResponse = "hello there" :=
  reply_extraction_order.1 sampleResponse "hello there" rfl (by decide)

end ChatBot
